import Mathlib

/-!
Formal model of the `TA_Automation.py` data-synchronization job.

The script pulls three tabular datasets (session feedback, batch metadata,
staffing slots) from an analytics service, joins them, and publishes the
results to a spreadsheet.  This file gives a shallow embedding of the
script: cell values, per-row and per-table transformations translated from
the pandas expressions, and a whole-run model `runPipeline` that also
tracks the dynamic column sets of the data frames, the fetch-retry
behaviour, and which worksheet writes happen.

Pandas semantics captured by the embedding:
* `pd.to_datetime(s, errors='coerce')` turns nulls and unparseable strings
  into NaT; plain `pd.to_datetime(s)` raises on an unparseable string but
  still passes a null through as NaT.
* `Series.dt.to_period('M')` yields the month ordinal relative to 1970-01;
  `.astype(int)` on such a column raises when a NaT is present.
* `pd.merge` key comparison treats null keys as equal to each other (NaN
  keys do match NaN keys), mirrored here by `Option` equality.
* `pd.merge(df1, df2, on=ks)` suffixes every non-key column name occurring
  on both sides with `_x` (left copy) and `_y` (right copy).
* An inner merge preserves the left frame's row order; an outer merge
  additionally keeps unmatched rows of either side, padding the opposite
  side's columns with nulls (the claims proved below are insensitive to
  the outer merge's row order, which pandas sorts by key).
-/

deriving instance DecidableEq for Except

namespace TA

/-- A calendar timestamp at minute granularity, as a pandas `Timestamp`
value appears to the operations used by the script (`to_period('M')` and
`strftime('%Y-%m-%d-%H')` read nothing finer than the hour, but the minute
field keeps "time of day" meaningful for the independence statements). -/
structure Timestamp where
  year : Nat
  month : Nat
  day : Nat
  hour : Nat
  minute : Nat
deriving DecidableEq

/-- A raw timestamp-like cell as fetched from the analytics service: a JSON
null (or NaN), a parseable timestamp literal, or an unparseable string. -/
inductive RawCell where
  | null : RawCell
  | ts (t : Timestamp) : RawCell
  | bad (s : String) : RawCell
deriving DecidableEq

/-- One cell under `pd.to_datetime(-, errors='coerce')` (lines 137-138):
nulls and unparseable strings both coerce to NaT (`none`). -/
def toDatetimeCoerce : RawCell → Option Timestamp
  | .null => none
  | .ts t => some t
  | .bad _ => none

/-- One cell under plain `pd.to_datetime(-)` (line 155, default
`errors='raise'`): an unparseable string raises, but a null input still
passes through silently as NaT. -/
def toDatetimeStrict : RawCell → Except String (Option Timestamp)
  | .null => .ok none
  | .ts t => .ok (some t)
  | .bad s => .error s

/-- `to_period('M')` ordinal of a timestamp: whole months since 1970-01. -/
def periodM (t : Timestamp) : Int :=
  ((t.year : Int) - 1970) * 12 + ((t.month : Int) - 1)

/-- Zero-pad to two digits (strftime `%m`, `%d`, `%H`). -/
def pad2 (n : Nat) : String :=
  if n < 10 then "0" ++ toString n else toString n

/-- Zero-pad to four digits (strftime `%Y`; pandas timestamps live between
1677 and 2262, so four digits always suffice). -/
def pad4 (n : Nat) : String :=
  if n < 10 then "000" ++ toString n
  else if n < 100 then "00" ++ toString n
  else if n < 1000 then "0" ++ toString n
  else toString n

/-- `t.strftime('%Y-%m-%d-%H')`, the hour-bucket key of lines 150 and 156. -/
def strftimeYMDH (t : Timestamp) : String :=
  pad4 t.year ++ "-" ++ pad2 t.month ++ "-" ++ pad2 t.day ++ "-" ++ pad2 t.hour

/-- One row of `df1`, the sessions-feedback table, in the projected and
renamed shape of lines 116-121: `lu_batch_name` has become `Batch` and
`module_name` has become `Module`. Free-text columns are nullable strings,
`rating` is a nullable number, and the two timestamp-like columns are raw
cells still to be parsed. -/
structure Df1Row where
  subjective_feedback : Option String
  Batch : String
  au_batch_name : Option String
  au_start_date : RawCell
  feedback_given : Option String
  session_id : String
  rating : Option Int
  description : Option String
  Module : Option String
  topic : Option String
  cancel_reason : Option String
  action_time : Option String
  booked_time : Option String
  session_start_time : RawCell
deriving DecidableEq

/-- One row of `df2`, the batch table, after the rename of line 125
(`batch` to `Batch`), restricted to the columns required by lines 128-131. -/
structure Df2Row where
  session_id : String
  Batch : String
  mentor_name : String
  time_category : String
  session_start_time : RawCell
deriving DecidableEq

/-- One row of `df` after the inner merge of line 134.  Both inputs carry a
non-key column named `session_start_time`, so pandas renames the two copies
to `session_start_time_x` (the `df1` copy) and `session_start_time_y`
(the `df2` copy) in the merged frame. -/
structure DfRow where
  session_id : String
  Batch : String
  subjective_feedback : Option String
  au_batch_name : Option String
  au_start_date : RawCell
  feedback_given : Option String
  rating : Option Int
  description : Option String
  Module : Option String
  topic : Option String
  cancel_reason : Option String
  action_time : Option String
  booked_time : Option String
  session_start_time_x : RawCell
  mentor_name : String
  time_category : String
  session_start_time_y : RawCell
deriving DecidableEq

/-- Pair a matching `df1` row with a `df2` row into a merged row. -/
def combineRows (x : Df1Row) (y : Df2Row) : DfRow where
  session_id := x.session_id
  Batch := x.Batch
  subjective_feedback := x.subjective_feedback
  au_batch_name := x.au_batch_name
  au_start_date := x.au_start_date
  feedback_given := x.feedback_given
  rating := x.rating
  description := x.description
  Module := x.Module
  topic := x.topic
  cancel_reason := x.cancel_reason
  action_time := x.action_time
  booked_time := x.booked_time
  session_start_time_x := x.session_start_time
  mentor_name := y.mentor_name
  time_category := y.time_category
  session_start_time_y := y.session_start_time

/-- `pd.merge(df1, df2, on=['session_id', 'Batch'], how='inner')`
(line 134): every pair of rows agreeing on both keys produces one output
row; the left frame's row order is preserved, and within one left row the
matching right rows keep their order. -/
def mergeInner (xs : List Df1Row) (ys : List Df2Row) : List DfRow :=
  xs.flatMap fun x =>
    (ys.filter fun y =>
      decide (y.session_id = x.session_id) && decide (y.Batch = x.Batch)).map
      fun y => combineRows x y

/-- A merged row after lines 137-138 have parsed the two timestamp columns.
Line 137 addresses the column by its pre-merge name `session_start_time`;
the intended operand is the session's start time, modeled here from the
`df1` copy (`session_start_time_x`).  The merged frame no longer carries a
column of the unsuffixed name, which is exactly what `runPipeline` and
`sst_not_mem_mergeCols` below record; this row shape is the state the
script's own comments intend for the feature-engineering steps. -/
structure ParsedRow where
  session_id : String
  Batch : String
  subjective_feedback : Option String
  au_batch_name : Option String
  au_start_date : Option Timestamp
  feedback_given : Option String
  rating : Option Int
  description : Option String
  Module : Option String
  topic : Option String
  cancel_reason : Option String
  action_time : Option String
  booked_time : Option String
  session_start_time : Option Timestamp
  mentor_name : String
  time_category : String
  session_start_time_y : RawCell
deriving DecidableEq

/-- Lines 137-138 applied to one merged row. -/
def parseTimes (r : DfRow) : ParsedRow where
  session_id := r.session_id
  Batch := r.Batch
  subjective_feedback := r.subjective_feedback
  au_batch_name := r.au_batch_name
  au_start_date := toDatetimeCoerce r.au_start_date
  feedback_given := r.feedback_given
  rating := r.rating
  description := r.description
  Module := r.Module
  topic := r.topic
  cancel_reason := r.cancel_reason
  action_time := r.action_time
  booked_time := r.booked_time
  session_start_time := toDatetimeCoerce r.session_start_time_x
  mentor_name := r.mentor_name
  time_category := r.time_category
  session_start_time_y := r.session_start_time_y

/-- Sequence a fallible per-element computation over a list, stopping at
the first failure, as the vectorized pandas operations below do. -/
def exceptMap (f : α → Except String β) : List α → Except String (List β)
  | [] => .ok []
  | x :: xs =>
    match f x with
    | .error e => .error e
    | .ok y =>
      match exceptMap f xs with
      | .error e => .error e
      | .ok ys => .ok (y :: ys)

/-- `.astype(int)` on a period column (lines 141-142): raises as soon as a
NaT is present, otherwise returns the ordinals. -/
def astypeInt (xs : List (Option Int)) : Except String (List Int) :=
  exceptMap
    (fun o =>
      match o with
      | some v => .ok v
      | none => .error "Cannot convert NaT values to integer")
    xs

/-- A parsed row extended with the `month_diff_period` column of line 140. -/
structure MDRow extends ParsedRow where
  month_diff_period : Int
deriving DecidableEq

/-- Elementwise difference of the two ordinal columns (line 140's `-`). -/
def subLists : List Int → List Int → List Int
  | a :: as_, b :: bs => (a - b) :: subLists as_ bs
  | _, _ => []

/-- Assign the computed column back onto the frame, positionally. -/
def attachMD : List ParsedRow → List Int → List MDRow
  | r :: rs, v :: vs => { toParsedRow := r, month_diff_period := v } :: attachMD rs vs
  | _, _ => []

/-- Lines 140-143:
`df['month_diff_period'] = df['session_start_time'].dt.to_period('M').astype(int)
 - df['au_start_date'].dt.to_period('M').astype(int)`.
Each `astype(int)` is a whole-column conversion that raises on a NaT. -/
def monthDiffStep (rows : List ParsedRow) : Except String (List MDRow) :=
  match astypeInt (rows.map fun r => r.session_start_time.map periodM) with
  | .error e => .error e
  | .ok a =>
    match astypeInt (rows.map fun r => r.au_start_date.map periodM) with
    | .error e => .error e
    | .ok b => .ok (attachMD rows (subLists a b))

/-- The per-group lambda of lines 146-148,
`lambda x: x.mask(np.arange(len(x)) != 0, np.nan)`: position 0 of the
group's rating series is kept, every later position becomes null. -/
def maskAfterFirst (xs : List (Option Int)) : List (Option Int) :=
  match xs with
  | [] => []
  | x :: rest => x :: rest.map fun _ => none

/-- `df.groupby('session_id')['rating'].transform(...)` scatters each
masked group series back to the original row positions: a row's new rating
is entry `k` of the masked rating series of its `session_id` group, where
`k` counts the earlier rows sharing its `session_id`.  `all` is the whole
frame and `pre` the rows already passed. -/
def transformAux (all : List MDRow) (pre : List MDRow) : List MDRow → List MDRow
  | [] => []
  | r :: rest =>
    let k := (pre.filter fun p => decide (p.session_id = r.session_id)).length
    let grp :=
      (all.filter fun p => decide (p.session_id = r.session_id)).map fun p => p.rating
    { r with rating := (maskAfterFirst grp).getD k none } ::
      transformAux all (pre ++ [r]) rest

/-- Lines 146-148: the rating deduplication over the whole frame. -/
def dedupRating (rows : List MDRow) : List MDRow :=
  transformAux rows [] rows

/-- A row extended with the `year_month_date_hour` key column of line 150. -/
structure KeyedRow extends MDRow where
  year_month_date_hour : Option String
deriving DecidableEq

/-- Line 150: `df['session_start_time'].dt.strftime('%Y-%m-%d-%H')`; a NaT
start time yields a null key. -/
def addKey (r : MDRow) : KeyedRow :=
  { toMDRow := r, year_month_date_hour := r.session_start_time.map strftimeYMDH }

/-- `df.drop_duplicates()` (line 151): keep the first occurrence of every
fully equal row (pandas also treats nulls as equal here). -/
def dropDuplicates (rows : List KeyedRow) : List KeyedRow :=
  rows.foldl (fun acc r => if r ∈ acc then acc else acc ++ [r]) []

/-- One raw row of the slots query result, before line 154's processing. -/
structure SlotInput where
  date : RawCell
  time_category : String
  ta : String
deriving DecidableEq

/-- One row of `df3` after lines 154-157: parsed date, derived hour-bucket
key, and `ta` renamed to `mentor_name`. -/
structure SlotRow where
  date : Option Timestamp
  year_month_date_hour : Option String
  mentor_name : String
  time_category : String
deriving DecidableEq

/-- Lines 154-157: `df3['date'] = pd.to_datetime(df3['date'])` is strict
(an unparseable string raises, aborting the run), then the key column is
derived and `ta` is renamed.  A null date survives as NaT with a null key. -/
def buildDf3 (xs : List SlotInput) : Except String (List SlotRow) :=
  exceptMap
    (fun s =>
      match toDatetimeStrict s.date with
      | .error e => .error e
      | .ok d =>
        .ok { date := d, year_month_date_hour := d.map strftimeYMDH,
              mentor_name := s.ta, time_category := s.time_category })
    xs

/-- Join-key agreement for line 160's merge on
`['year_month_date_hour', 'mentor_name', 'time_category']`.  pandas merge
keys compare null to null as equal (NaN keys do match each other), which
`Option` equality mirrors. -/
def rowsMatch (x : KeyedRow) (y : SlotRow) : Bool :=
  decide (x.year_month_date_hour = y.year_month_date_hour) &&
    decide (x.mentor_name = y.mentor_name) &&
    decide (x.time_category = y.time_category)

/-- One row of `df4`.  The three key columns are always present; `sess`
holds the session side's columns (`none` when this row came only from the
slot table, i.e. those columns are null-padded) and `slot` holds the slot
side's `date` column and key copies (`none` when the row came only from
the session table). -/
structure Df4Row where
  year_month_date_hour : Option String
  mentor_name : String
  time_category : String
  sess : Option KeyedRow
  slot : Option SlotRow
deriving DecidableEq

/-- A matched pair of rows in `df4`. -/
def pairRow (x : KeyedRow) (y : SlotRow) : Df4Row where
  year_month_date_hour := x.year_month_date_hour
  mentor_name := x.mentor_name
  time_category := x.time_category
  sess := some x
  slot := some y

/-- A session row with no matching slot row: slot columns null-padded. -/
def leftOnlyRow (x : KeyedRow) : Df4Row where
  year_month_date_hour := x.year_month_date_hour
  mentor_name := x.mentor_name
  time_category := x.time_category
  sess := some x
  slot := none

/-- A slot row with no matching session row: session columns null-padded. -/
def rightOnlyRow (y : SlotRow) : Df4Row where
  year_month_date_hour := y.year_month_date_hour
  mentor_name := y.mentor_name
  time_category := y.time_category
  sess := none
  slot := some y

/-- `pd.merge(df, df3, on=['year_month_date_hour', 'mentor_name',
'time_category'], how='outer')` (line 160), as a multiset of rows: all
matched pairs, then the unmatched session rows with the slot side null,
then the unmatched slot rows with the session side null.  (pandas orders
an outer join by sorted key; the properties proved below do not depend on
row order.) -/
def mergeOuter (xs : List KeyedRow) (ys : List SlotRow) : List Df4Row :=
  (xs.flatMap fun x =>
    match ys.filter (fun y => rowsMatch x y) with
    | [] => [leftOnlyRow x]
    | ms => ms.map fun y => pairRow x y)
  ++ ((ys.filter fun y => !(xs.any fun x => rowsMatch x y)).map fun y => rightOnlyRow y)

/-- The run's environment variables (lines 18-28); `none` models an unset
variable (`os.getenv` returning `None`). -/
structure Env where
  ASHRITHA_SECRET_KEY : Option String
  USERNAME : Option String
  SERVICE_ACCOUNT_JSON : Option String
  METABASE_URL : Option String
  TA_SHEET_ACCESS_KEY : Option String
  TA_SESSIONS_QUERY : Option String
  TA_BATCH_QUERY : Option String
  TA_SLOTS_QUERY : Option String

/-- Python truthiness as used by `if not sec` (lines 30 and 33): unset or
empty-string values are falsy. -/
def falsy : Option String → Bool
  | none => true
  | some s => s.isEmpty

/-- The exceptions that can abort a run. `attributeError` is line 21's
`None.rstrip`; the two `valueError`s are the explicit checks of lines
30-34; `schemaError` carries the missing-column list of line 131;
`keyError` is a pandas column lookup on an absent column name;
`convertError` is the NaT-to-integer failure of lines 140-143;
`dateParseError` is line 155's strict parse failure. -/
inductive RunError where
  | attributeError (msg : String)
  | valueError (msg : String)
  | schemaError (missing : List String)
  | googleAuthError (msg : String)
  | metabaseAuthError (msg : String)
  | fetchError (dataset : String) (msg : String)
  | fetchNone (dataset : String)
  | keyError (column : String)
  | convertError (msg : String)
  | dateParseError (msg : String)
deriving DecidableEq

/-- `True` exactly for the errors raised by the configuration checks of
lines 18-34, before any authentication, fetch or write. -/
def RunError.isConfigError : RunError → Bool
  | .attributeError _ => true
  | .valueError _ => true
  | _ => false

/-- Outcome trace of one `fetch_with_retry` call (lines 66-77): the final
result (`none` models Python's implicit `return None` when the loop body
never runs, i.e. `retries = 0`), the number of attempts made, and the
sleeps (in seconds) inserted between failed attempts. -/
structure RetryTrace (α : Type) where
  result : Option (Except String α)
  attempts : Nat
  sleeps : List Nat
deriving DecidableEq

/-- The retry loop of lines 67-77.  `net` gives the outcome of each
numbered attempt (`requests.post` + `raise_for_status`), `attempt` is the
current attempt number and `remaining` the attempts still allowed
including the current one.  On failure the loop sleeps `delay` seconds and
retries, except on the last attempt, where it re-raises. -/
def fetchLoop (net : Nat → Except String α) (delay : Nat)
    (attempt : Nat) : Nat → RetryTrace α
  | 0 => { result := none, attempts := 0, sleeps := [] }
  | remaining + 1 =>
    match net attempt with
    | .ok r => { result := some (.ok r), attempts := 1, sleeps := [] }
    | .error e =>
      if remaining = 0 then { result := some (.error e), attempts := 1, sleeps := [] }
      else
        let t := fetchLoop net delay (attempt + 1) remaining
        { result := t.result, attempts := t.attempts + 1, sleeps := delay :: t.sleeps }

/-- `fetch_with_retry(url, headers, retries, delay)` starting at attempt 1.
The script always uses the defaults `retries=5, delay=15` (line 107). -/
def fetchWithRetry (net : Nat → Except String α) (retries delay : Nat) : RetryTrace α :=
  fetchLoop net delay 1 retries

/-- `requests.post(url, ...)` when the query environment variable is unset:
`url` is `None` and the call raises `MissingSchema` locally on every
attempt, before any network traffic; otherwise the attempt's outcome is
the network's. -/
def netFor (url : Option String) (net : Nat → Except String α) : Nat → Except String α :=
  fun n =>
    match url with
    | none => .error "MissingSchema: Invalid URL None"
    | some _ => net n

/-- A fetched, deserialized tabular query response: its column-name list
together with its rows, the latter already in the typed shape consumed by
the join pipeline (extra columns beyond that shape are tracked only in
`cols`). -/
structure Fetched (ρ : Type) where
  cols : List String
  rows : List ρ
deriving DecidableEq

/-- The externally determined outcomes of one run: the Google service-
account authorization (lines 37-45, including `json.loads`), the Metabase
session request (lines 48-58, including `raise_for_status` and reading
`id`), and the per-attempt outcome of each of the three query posts
(line 69, deserialization folded in). -/
structure World where
  googleAuth : Except String Unit
  metabaseAuth : Except String String
  netSessions : Nat → Except String (Fetched Df1Row)
  netBatch : Nat → Except String (Fetched Df2Row)
  netSlots : Nat → Except String (Fetched SlotInput)

/-- The source columns selected by line 116's projection (pre-rename). -/
def df1SourceCols : List String :=
  ["subjective_feedback", "lu_batch_name", "au_batch_name", "au_start_date",
   "feedback_given", "session_id", "rating", "description", "module_name",
   "topic", "cancel_reason", "action_time", "booked_time", "session_start_time"]

/-- `df1`'s columns after the projection and line 121's rename. -/
def df1Cols : List String :=
  ["subjective_feedback", "Batch", "au_batch_name", "au_start_date",
   "feedback_given", "session_id", "rating", "description", "Module",
   "topic", "cancel_reason", "action_time", "booked_time", "session_start_time"]

/-- `df.rename(columns=...)` on the column list, for a single renaming. -/
def renameCol (old new : String) (cols : List String) : List String :=
  cols.map fun c => if c = old then new else c

/-- The required `df2` columns validated by lines 128-131. -/
def requiredDf2Cols : List String :=
  ["session_id", "Batch", "mentor_name", "time_category", "session_start_time"]

/-- Column set of `pd.merge(left, right, on=ks)`: key columns keep their
name and their position in the left frame; every other column name present
on both sides gets `_x` appended on the left copy and `_y` on the right
copy. -/
def mergeColsInner (left right ks : List String) : List String :=
  (left.map fun c => if c ∈ ks then c else if c ∈ right then c ++ "_x" else c)
  ++ ((right.filter fun c => !decide (c ∈ ks)).map fun c =>
      if c ∈ left then c ++ "_y" else c)

/-- The observable outcome of one run: how it ended, how many data-query
post attempts were made in total (all three submitted fetches run to
completion on the worker pool before `f.result()` re-raises), and which
worksheets were written. -/
structure RunTrace where
  result : Except RunError Unit
  fetchAttempts : Nat
  publishes : List String
deriving DecidableEq

/-- The pipeline from the `df1` projection (line 116) to the worksheet
writes (lines 163-170), given the three fetched tables and the total
attempt count `n`: the projection's column check, the `df2` rename and
required-column validation (124-131), the inner merge (134) with its
column suffixing, line 137's lookup of the column `session_start_time` in
the merged frame, the feature engineering (137-151), the slots table
(154-157), the outer merge (160), and the three writes, modeled as
emitting the worksheet titles in order (the writes' own retry loop is not
needed for the properties proved here). -/
def postFetch (s : Fetched Df1Row) (b : Fetched Df2Row) (l : Fetched SlotInput)
    (n : Nat) : RunTrace :=
  if !(df1SourceCols.all fun c => decide (c ∈ s.cols)) then
    { result := .error (.keyError "df1 projection"), fetchAttempts := n, publishes := [] }
  else
    let cols2 := renameCol "batch" "Batch" b.cols
    let missing := requiredDf2Cols.filter fun c => !decide (c ∈ cols2)
    if !missing.isEmpty then
      { result := .error (.schemaError missing), fetchAttempts := n, publishes := [] }
    else
      let mergedCols := mergeColsInner df1Cols cols2 ["session_id", "Batch"]
      if !decide ("session_start_time" ∈ mergedCols) then
        { result := .error (.keyError "session_start_time"),
          fetchAttempts := n, publishes := [] }
      else
        let joined := mergeInner s.rows b.rows
        let parsed := joined.map parseTimes
        match monthDiffStep parsed with
        | .error e =>
          { result := .error (.convertError e), fetchAttempts := n, publishes := [] }
        | .ok md =>
          let final := dropDuplicates ((dedupRating md).map addKey)
          if !decide ("date" ∈ l.cols) then
            { result := .error (.keyError "date"), fetchAttempts := n, publishes := [] }
          else
            match buildDf3 l.rows with
            | .error e =>
              { result := .error (.dateParseError e), fetchAttempts := n, publishes := [] }
            | .ok df3 =>
              let _df4 := mergeOuter final df3
              { result := .ok (), fetchAttempts := n,
                publishes := ["TA_sessions", "TA_slots", "TA-sessions-all"] }

/-- Lines 106-110: the three submitted fetches all run to completion on
the worker pool; `f.result()` then re-raises the first failure in the
fixed order sessions, batch, slots.  On success the run continues with the
three tables. -/
def collectResults (tS : RetryTrace (Fetched Df1Row)) (tB : RetryTrace (Fetched Df2Row))
    (tL : RetryTrace (Fetched SlotInput)) : RunTrace :=
  let n := tS.attempts + tB.attempts + tL.attempts
  match tS.result with
  | none => { result := .error (.fetchNone "sessions"), fetchAttempts := n, publishes := [] }
  | some (.error e) =>
    { result := .error (.fetchError "sessions" e), fetchAttempts := n, publishes := [] }
  | some (.ok s) =>
    match tB.result with
    | none => { result := .error (.fetchNone "batch"), fetchAttempts := n, publishes := [] }
    | some (.error e) =>
      { result := .error (.fetchError "batch" e), fetchAttempts := n, publishes := [] }
    | some (.ok b) =>
      match tL.result with
      | none => { result := .error (.fetchNone "slots"), fetchAttempts := n, publishes := [] }
      | some (.error e) =>
        { result := .error (.fetchError "slots" e), fetchAttempts := n, publishes := [] }
      | some (.ok l) => postFetch s b l n

/-- The whole run of `TA_Automation.py`: environment loading and checks
(lines 18-34), Google auth (37-45), Metabase auth (48-63), the three
parallel fetches with retry (100-108), then `collectResults`. -/
def runPipeline (env : Env) (w : World) : RunTrace :=
  match env.METABASE_URL with
  | none =>
    { result := .error (.attributeError "NoneType object has no attribute rstrip"),
      fetchAttempts := 0, publishes := [] }
  | some _ =>
    if falsy env.ASHRITHA_SECRET_KEY || falsy env.SERVICE_ACCOUNT_JSON then
      { result := .error (.valueError "Missing environment variables. Check GitHub secrets."),
        fetchAttempts := 0, publishes := [] }
    else if falsy env.TA_SHEET_ACCESS_KEY then
      { result := .error (.valueError "TA_SHEET_ACCESS_KEY is not set. Check GitHub secrets."),
        fetchAttempts := 0, publishes := [] }
    else
      match w.googleAuth with
      | .error e =>
        { result := .error (.googleAuthError e), fetchAttempts := 0, publishes := [] }
      | .ok _ =>
        match w.metabaseAuth with
        | .error e =>
          { result := .error (.metabaseAuthError e), fetchAttempts := 0, publishes := [] }
        | .ok _ =>
          collectResults
            (fetchWithRetry (netFor env.TA_SESSIONS_QUERY w.netSessions) 5 15)
            (fetchWithRetry (netFor env.TA_BATCH_QUERY w.netBatch) 5 15)
            (fetchWithRetry (netFor env.TA_SLOTS_QUERY w.netSlots) 5 15)

/-! ### Lemmas about the elementwise fallible maps -/

theorem exceptMap_ok (f : α → Except String β) :
    ∀ (xs : List α) (ys : List β), exceptMap f xs = .ok ys →
      ys.length = xs.length ∧
        ∀ (i : Nat) (x : α), xs[i]? = some x → ∃ y, ys[i]? = some y ∧ f x = .ok y := by
  intro xs
  induction xs with
  | nil =>
    intro ys h
    simp only [exceptMap, Except.ok.injEq] at h
    subst h
    exact ⟨rfl, by intro i x hx; simp at hx⟩
  | cons x xs ih =>
    intro ys h
    rw [exceptMap] at h
    cases hfx : f x with
    | error e => rw [hfx] at h; exact absurd h (by simp)
    | ok y =>
      rw [hfx] at h
      cases hrest : exceptMap f xs with
      | error e => rw [hrest] at h; exact absurd h (by simp)
      | ok ys' =>
        rw [hrest] at h
        have hys : y :: ys' = ys := by injection h
        obtain ⟨hlen, hidx⟩ := ih ys' hrest
        subst hys
        refine ⟨by simp [hlen], ?_⟩
        intro i x' hx'
        cases i with
        | zero =>
          simp only [List.getElem?_cons_zero, Option.some.injEq] at hx'
          exact ⟨y, by simp, hx' ▸ hfx⟩
        | succ i' =>
          simp only [List.getElem?_cons_succ] at hx' ⊢
          exact hidx i' x' hx'

theorem subLists_get? :
    ∀ (as_ bs : List Int) (i : Nat) (a b : Int),
      as_[i]? = some a → bs[i]? = some b → (subLists as_ bs)[i]? = some (a - b) := by
  intro as_
  induction as_ with
  | nil => intro bs i a b ha; simp at ha
  | cons x xs ih =>
    intro bs i a b ha hb
    cases bs with
    | nil => simp at hb
    | cons y ys =>
      cases i with
      | zero =>
        simp only [List.getElem?_cons_zero, Option.some.injEq] at ha hb
        simp [subLists, ha, hb]
      | succ i' =>
        simp only [List.getElem?_cons_succ] at ha hb
        simpa [subLists] using ih ys i' a b ha hb

theorem subLists_length :
    ∀ (as_ bs : List Int), (subLists as_ bs).length = min as_.length bs.length := by
  intro as_
  induction as_ with
  | nil => intro bs; cases bs <;> simp [subLists]
  | cons x xs ih =>
    intro bs
    cases bs with
    | nil => simp [subLists]
    | cons y ys => simp [subLists, ih ys, Nat.succ_min_succ]

theorem attachMD_get? :
    ∀ (rs : List ParsedRow) (vs : List Int) (i : Nat) (r : ParsedRow) (v : Int),
      rs[i]? = some r → vs[i]? = some v →
        (attachMD rs vs)[i]? = some { toParsedRow := r, month_diff_period := v } := by
  intro rs
  induction rs with
  | nil => intro vs i r v hr; simp at hr
  | cons x xs ih =>
    intro vs i r v hr hv
    cases vs with
    | nil => simp at hv
    | cons y ys =>
      cases i with
      | zero =>
        simp only [List.getElem?_cons_zero, Option.some.injEq] at hr hv
        simp [attachMD, hr, hv]
      | succ i' =>
        simp only [List.getElem?_cons_succ] at hr hv
        simpa [attachMD] using ih ys i' r v hr hv

theorem attachMD_length :
    ∀ (rs : List ParsedRow) (vs : List Int),
      (attachMD rs vs).length = min rs.length vs.length := by
  intro rs
  induction rs with
  | nil => intro vs; cases vs <;> simp [attachMD]
  | cons x xs ih =>
    intro vs
    cases vs with
    | nil => simp [attachMD]
    | cons y ys => simp [attachMD, ih ys, Nat.succ_min_succ]

/-- What a successful run of lines 140-143 means: every row's two
timestamps parsed, and each output row is its input row with the computed
month difference attached. -/
theorem monthDiffStep_ok (rows : List ParsedRow) (out : List MDRow)
    (h : monthDiffStep rows = .ok out) :
    out.length = rows.length ∧
    ∀ (i : Nat) (r : ParsedRow), rows[i]? = some r →
      ∃ (t1 t2 : Timestamp), r.session_start_time = some t1 ∧ r.au_start_date = some t2 ∧
        out[i]? =
          some ({ toParsedRow := r, month_diff_period := periodM t1 - periodM t2 } : MDRow) := by
  rw [monthDiffStep] at h
  cases ha : astypeInt (rows.map fun r => r.session_start_time.map periodM) with
  | error e => rw [ha] at h; exact absurd h (by simp)
  | ok a =>
    rw [ha] at h
    cases hb : astypeInt (rows.map fun r => r.au_start_date.map periodM) with
    | error e => rw [hb] at h; exact absurd h (by simp)
    | ok b =>
      rw [hb] at h
      have hout : attachMD rows (subLists a b) = out := by injection h
      obtain ⟨haL, haI⟩ := exceptMap_ok _ _ _ ha
      obtain ⟨hbL, hbI⟩ := exceptMap_ok _ _ _ hb
      subst hout
      constructor
      · rw [attachMD_length, subLists_length, haL, hbL]
        simp
      · intro i r hr
        have hA : (rows.map fun r => r.session_start_time.map periodM)[i]? =
            some (r.session_start_time.map periodM) := by
          rw [List.getElem?_map, hr]; rfl
        have hB : (rows.map fun r => r.au_start_date.map periodM)[i]? =
            some (r.au_start_date.map periodM) := by
          rw [List.getElem?_map, hr]; rfl
        obtain ⟨va, hva, hfa⟩ := haI i _ hA
        obtain ⟨vb, hvb, hfb⟩ := hbI i _ hB
        cases hst : r.session_start_time with
        | none => rw [hst] at hfa; exact absurd hfa (by simp)
        | some t1 =>
          cases hau : r.au_start_date with
          | none => rw [hau] at hfb; exact absurd hfb (by simp)
          | some t2 =>
            rw [hst] at hfa
            rw [hau] at hfb
            have hva' : periodM t1 = va := by injection hfa
            have hvb' : periodM t2 = vb := by injection hfb
            subst hva'
            subst hvb'
            exact ⟨t1, t2, rfl, rfl,
              attachMD_get? rows (subLists a b) i r _ hr (subLists_get? a b i _ _ hva hvb)⟩

/-! ### Lemmas about the rating deduplication -/

theorem maskAfterFirst_getD_succ (g : List (Option Int)) (k : Nat) :
    (maskAfterFirst g).getD (k + 1) none = none := by
  cases g with
  | nil => simp [maskAfterFirst]
  | cons x rest =>
    rw [maskAfterFirst, List.getD_eq_getElem?_getD, List.getElem?_cons_succ,
      List.getElem?_map]
    cases rest[k]? <;> rfl

theorem transformAux_length (all : List MDRow) :
    ∀ (pre suf : List MDRow), (transformAux all pre suf).length = suf.length := by
  intro pre suf
  induction suf generalizing pre with
  | nil => simp [transformAux]
  | cons r rest ih => simp [transformAux, ih]

theorem transformAux_get? (all : List MDRow) :
    ∀ (pre suf : List MDRow), all = pre ++ suf →
      ∀ (i : Nat), (transformAux all pre suf)[i]? =
        (suf[i]?).map fun (r : MDRow) =>
          if (pre ++ suf.take i).any (fun p => decide (p.session_id = r.session_id))
          then { r with rating := none } else r := by
  intro pre suf
  induction suf generalizing pre with
  | nil => intro _ i; simp [transformAux]
  | cons r rest ih =>
    intro hall i
    cases i with
    | zero =>
      simp only [transformAux, List.getElem?_cons_zero, List.take_zero,
        List.append_nil, Option.map_some']
      refine congrArg some ?_
      by_cases hpre : pre.any (fun p => decide (p.session_id = r.session_id)) = true
      · obtain ⟨p, hp, hps⟩ := List.any_eq_true.mp hpre
        have hfilm : p ∈ pre.filter (fun p => decide (p.session_id = r.session_id)) :=
          List.mem_filter.mpr ⟨hp, hps⟩
        have hk : 0 < (pre.filter (fun p => decide (p.session_id = r.session_id))).length :=
          List.length_pos.mpr (List.ne_nil_of_mem hfilm)
        obtain ⟨k', hk'⟩ :
            ∃ (k' : Nat),
              (pre.filter (fun p => decide (p.session_id = r.session_id))).length
                = k' + 1 :=
          ⟨(pre.filter (fun p => decide (p.session_id = r.session_id))).length - 1,
            by omega⟩
        rw [if_pos hpre, hk', maskAfterFirst_getD_succ]
      · have hpre' := hpre
        rw [Bool.not_eq_true] at hpre'
        have hfil : pre.filter (fun p => decide (p.session_id = r.session_id)) = [] := by
          rw [List.filter_eq_nil_iff]
          intro p hp hps
          exact hpre (List.any_eq_true.mpr ⟨p, hp, hps⟩)
        have hgrp : all.filter (fun p => decide (p.session_id = r.session_id)) =
            r :: rest.filter (fun p => decide (p.session_id = r.session_id)) := by
          rw [hall, List.filter_append, hfil, List.nil_append,
            List.filter_cons_of_pos (by simp)]
        rw [if_neg (by simp [hpre'])]
        rw [hgrp, hfil]
        simp only [List.map_cons, maskAfterFirst, List.length_nil, List.getD_cons_zero]
    | succ i' =>
      simp only [transformAux, List.getElem?_cons_succ, List.take_succ_cons]
      rw [ih (pre ++ [r]) (by rw [hall, List.append_assoc, List.singleton_append])]
      simp [List.append_assoc]

/-- The rating deduplication, characterized positionally: a row keeps its
rating exactly when no earlier row shares its `session_id`; otherwise its
rating becomes null and nothing else changes. -/
theorem dedupRating_get? (rows : List MDRow) (i : Nat) :
    (dedupRating rows)[i]? = (rows[i]?).map fun r =>
      if (rows.take i).any (fun p => decide (p.session_id = r.session_id))
      then { r with rating := none } else r := by
  simpa using transformAux_get? rows [] rows (by simp) i

theorem dedupRating_length (rows : List MDRow) :
    (dedupRating rows).length = rows.length :=
  transformAux_length rows [] rows

theorem any_take_iff (rows : List MDRow) (i : Nat) (s : String) :
    (rows.take i).any (fun p => decide (p.session_id = s)) = true ↔
      ∃ j, j < i ∧ ∃ p, rows[j]? = some p ∧ p.session_id = s := by
  constructor
  · intro h
    obtain ⟨p, hp, hps⟩ := List.any_eq_true.mp h
    obtain ⟨n, hn⟩ := List.mem_iff_get?.mp hp
    rw [List.get?_eq_getElem?] at hn
    have hlt : n < (rows.take i).length := (List.getElem?_eq_some.mp hn).1
    rw [List.length_take] at hlt
    have hni : n < i := lt_of_lt_of_le hlt (min_le_left _ _)
    rw [List.getElem?_take_of_lt hni] at hn
    exact ⟨n, hni, p, hn, of_decide_eq_true hps⟩
  · rintro ⟨j, hj, p, hp, hps⟩
    refine List.any_eq_true.mpr ⟨p, ?_, decide_eq_true hps⟩
    have : (rows.take i)[j]? = some p := by rw [List.getElem?_take_of_lt hj]; exact hp
    obtain ⟨hlt, hget⟩ := List.getElem?_eq_some.mp this
    exact hget ▸ List.getElem_mem hlt

/-! ### Lemmas about the retry loop -/

theorem fetchLoop_ok (net : Nat → Except String α) (delay attempt n : Nat) (r : α)
    (h : net attempt = .ok r) :
    fetchLoop net delay attempt (n + 1) =
      { result := some (.ok r), attempts := 1, sleeps := [] } := by
  simp [fetchLoop, h]

theorem fetchLoop_last_err (net : Nat → Except String α) (delay attempt : Nat) (e : String)
    (h : net attempt = .error e) :
    fetchLoop net delay attempt 1 =
      { result := some (.error e), attempts := 1, sleeps := [] } := by
  simp [fetchLoop, h]

theorem fetchLoop_step_err (net : Nat → Except String α) (delay attempt n : Nat) (e : String)
    (h : net attempt = .error e) :
    fetchLoop net delay attempt (n + 2) =
      { result := (fetchLoop net delay (attempt + 1) (n + 1)).result,
        attempts := (fetchLoop net delay (attempt + 1) (n + 1)).attempts + 1,
        sleeps := delay :: (fetchLoop net delay (attempt + 1) (n + 1)).sleeps } := by
  simp [fetchLoop, h]

theorem fetchLoop_attempts_le (net : Nat → Except String α) (delay : Nat) :
    ∀ (n attempt : Nat), (fetchLoop net delay attempt n).attempts ≤ n := by
  intro n
  induction n with
  | zero => intro a; simp [fetchLoop]
  | succ m ih =>
    intro a
    cases h : net a with
    | ok r => simp [fetchLoop, h]
    | error e =>
      by_cases hm : m = 0
      · subst hm; simp [fetchLoop, h]
      · have hle := ih (a + 1)
        simp only [fetchLoop, h, if_neg hm]
        omega

theorem fetchLoop_attempts_pos (net : Nat → Except String α) (delay : Nat) :
    ∀ (n attempt : Nat), 1 ≤ (fetchLoop net delay attempt (n + 1)).attempts := by
  intro n a
  cases h : net a with
  | ok r => simp [fetchLoop, h]
  | error e =>
    by_cases hn : n = 0
    · subst hn; simp [fetchLoop, h]
    · simp [fetchLoop, h, if_neg hn]

theorem fetchLoop_sleeps (net : Nat → Except String α) (delay : Nat) :
    ∀ (n attempt : Nat),
      (fetchLoop net delay attempt n).sleeps =
        List.replicate ((fetchLoop net delay attempt n).attempts - 1) delay := by
  intro n
  induction n with
  | zero => intro a; simp [fetchLoop]
  | succ m ih =>
    intro a
    cases h : net a with
    | ok r => simp [fetchLoop, h]
    | error e =>
      by_cases hm : m = 0
      · subst hm; simp [fetchLoop, h]
      · obtain ⟨m', rfl⟩ : ∃ (m' : Nat), m = m' + 1 := ⟨m - 1, by omega⟩
        have hpos := fetchLoop_attempts_pos net delay m' (a + 1)
        have hs := ih (a + 1)
        rw [fetchLoop_step_err net delay a m' e h]
        rw [hs]
        obtain ⟨k, hk⟩ :
            ∃ (k : Nat), (fetchLoop net delay (a + 1) (m' + 1)).attempts = k + 1 :=
          ⟨(fetchLoop net delay (a + 1) (m' + 1)).attempts - 1, by omega⟩
        rw [hk]
        simp [List.replicate_succ]

/-! ### The merged frame loses the column `session_start_time` -/

theorem append_y_ne (c : String) : c ++ "_y" ≠ "session_start_time" := by
  intro h
  have hd : c.data ++ ['_', 'y'] =
      ['s', 'e', 's', 's', 'i', 'o', 'n', '_', 's', 't', 'a', 'r', 't', '_',
       't', 'i', 'm', 'e'] := by
    have h1 := congrArg String.data h
    rwa [String.data_append] at h1
  have hr := congrArg List.reverse hd
  rw [List.reverse_append] at hr
  have e1 : List.reverse ['_', 'y'] = ['y', '_'] := rfl
  have e2 : List.reverse
      ['s', 'e', 's', 's', 'i', 'o', 'n', '_', 's', 't', 'a', 'r', 't', '_',
       't', 'i', 'm', 'e'] =
      ['e', 'm', 'i', 't', '_', 't', 'r', 'a', 't', 's', '_', 'n', 'o', 'i',
       's', 's', 'e', 's'] := rfl
  rw [e1, e2] at hr
  simp at hr

/-- Whenever `df2` passed the required-column validation (so it carries a
`session_start_time` column), the merged frame of line 134 has no column
named `session_start_time`: both copies were suffixed.  Line 137's lookup
of that name therefore raises a KeyError. -/
theorem sst_not_mem_mergeCols (cols2 : List String)
    (h : "session_start_time" ∈ cols2) :
    "session_start_time" ∉ mergeColsInner df1Cols cols2 ["session_id", "Batch"] := by
  intro hmem
  rw [mergeColsInner, List.mem_append] at hmem
  rcases hmem with hL | hR
  · rw [List.mem_map] at hL
    obtain ⟨c, hc, himg⟩ := hL
    simp only [df1Cols, List.mem_cons, List.not_mem_nil, or_false] at hc
    rcases hc with rfl | rfl | rfl | rfl | rfl | rfl | rfl | rfl | rfl | rfl | rfl | rfl | rfl | rfl
    all_goals first
      | (rw [if_pos (by decide)] at himg; exact absurd himg (by decide))
      | (rw [if_neg (by decide), if_pos h] at himg; exact absurd himg (by decide))
      | (rw [if_neg (by decide)] at himg; split at himg <;> exact absurd himg (by decide))
  · rw [List.mem_map] at hR
    obtain ⟨c, hc, himg⟩ := hR
    rw [List.mem_filter] at hc
    by_cases hcs : c = "session_start_time"
    · subst hcs
      rw [if_pos (by decide)] at himg
      exact absurd himg (by decide)
    · by_cases hcl : c ∈ df1Cols
      · rw [if_pos hcl] at himg
        exact absurd himg (append_y_ne c)
      · rw [if_neg hcl] at himg
        exact absurd himg hcs

/-- The post-fetch pipeline never reaches a worksheet write: either a
check fails earlier, or the `df2` validation passes and line 137's column
lookup then fails, because the inner merge renamed both
`session_start_time` columns. -/
theorem postFetch_publishes_nil (s : Fetched Df1Row) (b : Fetched Df2Row)
    (l : Fetched SlotInput) (n : Nat) : (postFetch s b l n).publishes = [] := by
  rw [postFetch]
  cases h3 : (df1SourceCols.all fun c => decide (c ∈ s.cols)) with
  | false => simp [h3]
  | true =>
    simp only [h3, Bool.not_true, Bool.false_eq_true, if_false]
    cases h4 : (requiredDf2Cols.filter fun c =>
        !decide (c ∈ renameCol "batch" "Batch" b.cols)).isEmpty with
    | false => simp [h4]
    | true =>
      simp only [h4, Bool.not_true, Bool.false_eq_true, if_false]
      have hnil : (requiredDf2Cols.filter fun c =>
          !decide (c ∈ renameCol "batch" "Batch" b.cols)) = [] := by
        rwa [← List.isEmpty_iff]
      have hsst : "session_start_time" ∈ renameCol "batch" "Batch" b.cols := by
        have hall := List.filter_eq_nil_iff.mp hnil
        have hmem : "session_start_time" ∈ requiredDf2Cols := by decide
        have := hall _ hmem
        simpa using this
      have hnot := sst_not_mem_mergeCols _ hsst
      simp [hnot]

theorem collectResults_publishes_nil (tS : RetryTrace (Fetched Df1Row))
    (tB : RetryTrace (Fetched Df2Row)) (tL : RetryTrace (Fetched SlotInput)) :
    (collectResults tS tB tL).publishes = [] := by
  rw [collectResults]
  cases tS.result with
  | none => rfl
  | some rS =>
    cases rS with
    | error e => rfl
    | ok s =>
      cases tB.result with
      | none => rfl
      | some rB =>
        cases rB with
        | error e => rfl
        | ok b =>
          cases tL.result with
          | none => rfl
          | some rL =>
            cases rL with
            | error e => rfl
            | ok l => exact postFetch_publishes_nil s b l _

/-- No run of the script ever reaches a worksheet write. -/
theorem runPipeline_publishes_nil (env : Env) (w : World) :
    (runPipeline env w).publishes = [] := by
  rw [runPipeline]
  cases henv : env.METABASE_URL with
  | none => rfl
  | some u =>
    cases h1 : (falsy env.ASHRITHA_SECRET_KEY || falsy env.SERVICE_ACCOUNT_JSON) with
    | true => simp [h1]
    | false =>
      simp only [h1, Bool.false_eq_true, if_false]
      cases h2 : falsy env.TA_SHEET_ACCESS_KEY with
      | true => simp [h2]
      | false =>
        simp only [h2, Bool.false_eq_true, if_false]
        cases w.googleAuth with
        | error e => rfl
        | ok _ =>
          cases w.metabaseAuth with
          | error e => rfl
          | ok tok => exact collectResults_publishes_nil _ _ _

/-! ### Concrete sample data used by the witnesses -/

/-- Session start 2024-03-05T08:00 (the spec's example). -/
def tsA : Timestamp := { year := 2024, month := 3, day := 5, hour := 8, minute := 0 }

/-- Batch start 2024-01-20T23:00 (the spec's example). -/
def tsB : Timestamp := { year := 2024, month := 1, day := 20, hour := 23, minute := 0 }

def sampleDf1Row : Df1Row :=
  { subjective_feedback := some "helpful", Batch := "B1", au_batch_name := some "AU1",
    au_start_date := .ts tsB, feedback_given := some "yes", session_id := "s1",
    rating := some 5, description := none, Module := some "M1", topic := some "T1",
    cancel_reason := none, action_time := none, booked_time := none,
    session_start_time := .ts tsA }

/-- A second feedback row for the same session (same keys, another rating). -/
def sampleDf1RowB : Df1Row :=
  { sampleDf1Row with rating := some 3, subjective_feedback := some "ok" }

def sampleDf2Row : Df2Row :=
  { session_id := "s1", Batch := "B1", mentor_name := "alice",
    time_category := "morning", session_start_time := .ts tsA }

/-- The month-diff frame for the two-row sample (both rows differ by 2 months). -/
def c1md : List MDRow :=
  [{ toParsedRow := parseTimes (combineRows sampleDf1Row sampleDf2Row),
     month_diff_period := 2 },
   { toParsedRow := parseTimes (combineRows sampleDf1RowB sampleDf2Row),
     month_diff_period := 2 }]

def c4row : ParsedRow := parseTimes (combineRows sampleDf1Row sampleDf2Row)

def c4md : List MDRow := [{ toParsedRow := c4row, month_diff_period := 2 }]

def keyedA : KeyedRow :=
  addKey { toParsedRow := c4row, month_diff_period := 2 }

def slotA : SlotRow :=
  { date := some tsA, year_month_date_hour := some "2024-03-05-08",
    mentor_name := "alice", time_category := "morning" }

/-- A merged session row whose `session_start_time` failed to parse. -/
def nullParsed : ParsedRow :=
  { session_id := "s9", Batch := "B9", subjective_feedback := none,
    au_batch_name := none, au_start_date := none, feedback_given := none,
    rating := none, description := none, Module := none, topic := none,
    cancel_reason := none, action_time := none, booked_time := none,
    session_start_time := none, mentor_name := "alice",
    time_category := "morning", session_start_time_y := .null }

def nullMD : MDRow := { toParsedRow := nullParsed, month_diff_period := 0 }

def nullSlotInput : SlotInput := { date := .null, time_category := "morning", ta := "alice" }

def nullSlot : SlotRow :=
  { date := none, year_month_date_hour := none, mentor_name := "alice",
    time_category := "morning" }

/-! ### C1: rating deduplication after the session/batch join -/

/-- C1. After the session/batch inner join, within every group of rows
sharing a `session_id`, the rating-deduplication step keeps exactly the
first row's rating (in the original row order the join produced) and nulls
every later row's rating; nothing else about the rows changes.  The
deduplicated frame is `dedupRating md`, where `md` is the frame reaching
line 146 (the claim is stated relative to the joined rows, whose
`session_id`, `rating` and order the intermediate steps preserve). -/
theorem c1_rating_dedup (xs : List Df1Row) (ys : List Df2Row) (md : List MDRow)
    (h : monthDiffStep ((mergeInner xs ys).map parseTimes) = .ok md) :
    (dedupRating md).length = (mergeInner xs ys).length ∧
    ∀ (i : Nat) (r : DfRow), (mergeInner xs ys)[i]? = some r →
      ∃ o, (dedupRating md)[i]? = some o ∧ o.session_id = r.session_id ∧
        ((∀ (j : Nat) (p : DfRow), j < i → (mergeInner xs ys)[j]? = some p →
            p.session_id ≠ r.session_id) →
          o.rating = r.rating) ∧
        ((∃ (j : Nat) (p : DfRow), j < i ∧ (mergeInner xs ys)[j]? = some p ∧
            p.session_id = r.session_id) →
          o.rating = none) := by
  obtain ⟨hlen, hidx⟩ := monthDiffStep_ok _ _ h
  rw [List.length_map] at hlen
  have hmd : ∀ (j : Nat) (p : DfRow), (mergeInner xs ys)[j]? = some p →
      ∃ q, md[j]? = some q ∧ q.session_id = p.session_id ∧ q.rating = p.rating := by
    intro j p hp
    have hpj : ((mergeInner xs ys).map parseTimes)[j]? = some (parseTimes p) := by
      rw [List.getElem?_map, hp]; rfl
    obtain ⟨t1, t2, _, _, hq⟩ := hidx j (parseTimes p) hpj
    exact ⟨_, hq, rfl, rfl⟩
  constructor
  · rw [dedupRating_length, hlen]
  · intro i r hr
    obtain ⟨q, hq, hqs, hqr⟩ := hmd i r hr
    have hchar := dedupRating_get? md i
    rw [hq] at hchar
    refine ⟨_, hchar, ?_, ?_, ?_⟩
    · by_cases hc : ((md.take i).any fun p => decide (p.session_id = q.session_id)) = true
      · simp only [Option.map_some', hc, if_true]
        exact hqs
      · simp only [Option.map_some', Bool.not_eq_true] at hc ⊢
        rw [if_neg (by simp [hc])]
        exact hqs
    · intro hfirst
      have hcond : ((md.take i).any fun p => decide (p.session_id = q.session_id)) = false := by
        rw [← Bool.not_eq_true]
        intro hany
        obtain ⟨j, hj, p', hp', hps⟩ := (any_take_iff md i q.session_id).mp hany
        have hjlt : j < (mergeInner xs ys).length := by
          have := (List.getElem?_eq_some.mp hp').1
          omega
        have hjoined : (mergeInner xs ys)[j]? = some ((mergeInner xs ys)[j]) :=
          List.getElem?_eq_getElem hjlt
        obtain ⟨q', hq', hq's, _⟩ := hmd j _ hjoined
        rw [hp'] at hq'
        have hpq : p' = q' := by injection hq'
        exact hfirst j _ hj hjoined (by rw [← hq's, ← hpq, hps, hqs])
      simp only [Option.map_some', hcond, Bool.false_eq_true, if_false]
      exact hqr
    · rintro ⟨j, p, hj, hp, hps⟩
      obtain ⟨q', hq', hq's, _⟩ := hmd j p hp
      have hcond : ((md.take i).any fun p => decide (p.session_id = q.session_id)) = true :=
        (any_take_iff md i q.session_id).mpr ⟨j, hj, q', hq', by rw [hq's, hps, ← hqs]⟩
      simp only [Option.map_some', hcond, if_true]

/-- Witness for C1 at a concrete two-row group: the first row keeps its
rating 5, the second row's rating 3 is nulled. -/
theorem c1_rating_dedup_witness :
    ∃ o1 o2, (dedupRating c1md)[0]? = some o1 ∧ o1.rating = some 5 ∧
      (dedupRating c1md)[1]? = some o2 ∧ o2.rating = none := by
  obtain ⟨hlen, hidx⟩ :=
    c1_rating_dedup [sampleDf1Row, sampleDf1RowB] [sampleDf2Row] c1md (by rfl)
  obtain ⟨o1, ho1, _, hr1, _⟩ :=
    hidx 0 (combineRows sampleDf1Row sampleDf2Row) (by rfl)
  obtain ⟨o2, ho2, _, _, hn2⟩ :=
    hidx 1 (combineRows sampleDf1RowB sampleDf2Row) (by rfl)
  refine ⟨o1, o2, ho1, ?_, ho2, ?_⟩
  · rw [hr1 (by intro j p hj _; omega)]
    rfl
  · exact hn2 ⟨0, combineRows sampleDf1Row sampleDf2Row, by omega, by rfl, by rfl⟩

/-! ### C2: the inner join only keeps key pairs present on both sides -/

/-- C2. Every row of the session/batch inner merge carries a
`(session_id, Batch)` pair present in both inputs, and a row of either
side with no matching key pair on the other side contributes no output
row with its pair. -/
theorem c2_inner_merge_keys (xs : List Df1Row) (ys : List Df2Row) :
    (∀ r ∈ mergeInner xs ys,
      (∃ x ∈ xs, x.session_id = r.session_id ∧ x.Batch = r.Batch) ∧
      (∃ y ∈ ys, y.session_id = r.session_id ∧ y.Batch = r.Batch)) ∧
    (∀ x ∈ xs, (¬∃ y ∈ ys, y.session_id = x.session_id ∧ y.Batch = x.Batch) →
      ∀ r ∈ mergeInner xs ys, ¬(r.session_id = x.session_id ∧ r.Batch = x.Batch)) := by
  have hpart1 : ∀ r ∈ mergeInner xs ys,
      (∃ x ∈ xs, x.session_id = r.session_id ∧ x.Batch = r.Batch) ∧
      (∃ y ∈ ys, y.session_id = r.session_id ∧ y.Batch = r.Batch) := by
    intro r hr
    rw [mergeInner, List.mem_flatMap] at hr
    obtain ⟨x, hx, hr2⟩ := hr
    rw [List.mem_map] at hr2
    obtain ⟨y, hy2, rfl⟩ := hr2
    rw [List.mem_filter] at hy2
    obtain ⟨hy, hkey⟩ := hy2
    rw [Bool.and_eq_true, decide_eq_true_eq, decide_eq_true_eq] at hkey
    obtain ⟨hsid, hb⟩ := hkey
    exact ⟨⟨x, hx, rfl, rfl⟩, ⟨y, hy, hsid, hb⟩⟩
  refine ⟨hpart1, ?_⟩
  intro x hx hnone r hr hpair
  obtain ⟨_, ⟨y, hy, hy1, hy2⟩⟩ := hpart1 r hr
  exact hnone ⟨y, hy, by rw [hy1, hpair.1], by rw [hy2, hpair.2]⟩

/-- Witness for C2 at a concrete one-row merge. -/
theorem c2_inner_merge_keys_witness :
    (∃ x ∈ [sampleDf1Row],
        x.session_id = (combineRows sampleDf1Row sampleDf2Row).session_id ∧
        x.Batch = (combineRows sampleDf1Row sampleDf2Row).Batch) ∧
    (∃ y ∈ [sampleDf2Row],
        y.session_id = (combineRows sampleDf1Row sampleDf2Row).session_id ∧
        y.Batch = (combineRows sampleDf1Row sampleDf2Row).Batch) := by
  refine (c2_inner_merge_keys [sampleDf1Row] [sampleDf2Row]).1 _ ?_
  rw [show mergeInner [sampleDf1Row] [sampleDf2Row] =
    [combineRows sampleDf1Row sampleDf2Row] from rfl]
  exact List.mem_singleton.mpr rfl

/-! ### C3: outer-join coverage -/

/-- C3. The outer merge of line 160 contains every deduplicated session
row and every slot row at least once; a session row with no matching slot
row appears with the slot side null, and a slot row with no matching
session row appears with the session side null. -/
theorem c3_outer_join_coverage (xs : List KeyedRow) (ys : List SlotRow) :
    (∀ x ∈ xs, ∃ d ∈ mergeOuter xs ys, d.sess = some x) ∧
    (∀ y ∈ ys, ∃ d ∈ mergeOuter xs ys, d.slot = some y) ∧
    (∀ x ∈ xs, (∀ y ∈ ys, rowsMatch x y = false) →
      ∃ d ∈ mergeOuter xs ys, d.sess = some x ∧ d.slot = none) ∧
    (∀ y ∈ ys, (∀ x ∈ xs, rowsMatch x y = false) →
      ∃ d ∈ mergeOuter xs ys, d.slot = some y ∧ d.sess = none) := by
  refine ⟨?_, ?_, ?_, ?_⟩
  · intro x hx
    cases hf : ys.filter (fun y => rowsMatch x y) with
    | nil =>
      refine ⟨leftOnlyRow x,
        List.mem_append_left _ (List.mem_flatMap.mpr ⟨x, hx, ?_⟩), rfl⟩
      rw [hf]
      exact List.mem_singleton.mpr rfl
    | cons z zs =>
      refine ⟨pairRow x z,
        List.mem_append_left _ (List.mem_flatMap.mpr ⟨x, hx, ?_⟩), rfl⟩
      rw [hf]
      exact List.mem_map.mpr ⟨z, List.mem_cons_self z zs, rfl⟩
  · intro y hy
    by_cases hmatch : ∃ x ∈ xs, rowsMatch x y = true
    · obtain ⟨x, hx, hxy⟩ := hmatch
      have hyf : y ∈ ys.filter (fun y' => rowsMatch x y') := List.mem_filter.mpr ⟨hy, hxy⟩
      cases hf : ys.filter (fun y' => rowsMatch x y') with
      | nil => rw [hf] at hyf; exact absurd hyf (List.not_mem_nil y)
      | cons z zs =>
        refine ⟨pairRow x y,
          List.mem_append_left _ (List.mem_flatMap.mpr ⟨x, hx, ?_⟩), rfl⟩
        rw [hf]
        exact List.mem_map.mpr ⟨y, hf ▸ hyf, rfl⟩
    · have hany : (xs.any fun x => rowsMatch x y) = false := by
        rw [← Bool.not_eq_true, List.any_eq_true]
        rintro ⟨x, hx, hxy⟩
        exact hmatch ⟨x, hx, hxy⟩
      exact ⟨rightOnlyRow y,
        List.mem_append_right _ (List.mem_map.mpr
          ⟨y, List.mem_filter.mpr ⟨hy, by rw [hany]; rfl⟩, rfl⟩), rfl⟩
  · intro x hx hnom
    have hf : ys.filter (fun y => rowsMatch x y) = [] :=
      List.filter_eq_nil_iff.mpr fun y hy => by rw [hnom y hy]; exact Bool.false_ne_true
    refine ⟨leftOnlyRow x,
      List.mem_append_left _ (List.mem_flatMap.mpr ⟨x, hx, ?_⟩), rfl, rfl⟩
    rw [hf]
    exact List.mem_singleton.mpr rfl
  · intro y hy hnomx
    have hany : (xs.any fun x => rowsMatch x y) = false := by
      rw [← Bool.not_eq_true, List.any_eq_true]
      rintro ⟨x, hx, hxy⟩
      rw [hnomx x hx] at hxy
      exact Bool.false_ne_true hxy
    exact ⟨rightOnlyRow y,
      List.mem_append_right _ (List.mem_map.mpr
        ⟨y, List.mem_filter.mpr ⟨hy, by rw [hany]; rfl⟩, rfl⟩), rfl, rfl⟩

/-- Witness for C3 at a concrete matching pair. -/
theorem c3_outer_join_coverage_witness :
    ∃ d ∈ mergeOuter [keyedA] [slotA], d.sess = some keyedA :=
  (c3_outer_join_coverage [keyedA] [slotA]).1 keyedA (List.mem_singleton.mpr rfl)

/-! ### C4: the month difference is a pure calendar-month difference -/

/-- C4. Whenever the `month_diff_period` column is computed, each row
whose `session_start_time` and `au_start_date` both parsed carries the
difference of the two calendar-month indices `year * 12 + month`, a
possibly negative integer; and the ordinal each operand contributes
depends only on the year and month, never on day or time of day. -/
theorem c4_month_diff_period (rows : List ParsedRow) (out : List MDRow)
    (h : monthDiffStep rows = .ok out) :
    (∀ (i : Nat) (r : ParsedRow) (t1 t2 : Timestamp),
      rows[i]? = some r → r.session_start_time = some t1 → r.au_start_date = some t2 →
      ∃ m, out[i]? = some m ∧
        m.month_diff_period =
          ((t1.year : Int) * 12 + t1.month) - ((t2.year : Int) * 12 + t2.month)) ∧
    (∀ (t t' : Timestamp), t.year = t'.year → t.month = t'.month →
      periodM t = periodM t') := by
  constructor
  · intro i r t1 t2 hr hst hau
    obtain ⟨_, hidx⟩ := monthDiffStep_ok rows out h
    obtain ⟨t1', t2', hst', hau', hout⟩ := hidx i r hr
    rw [hst] at hst'
    rw [hau] at hau'
    have ht1 : t1 = t1' := by injection hst'
    have ht2 : t2 = t2' := by injection hau'
    subst ht1
    subst ht2
    refine ⟨_, hout, ?_⟩
    show periodM t1 - periodM t2 = _
    rw [periodM, periodM]
    omega
  · intro t t' hy hm
    rw [periodM, periodM, hy, hm]

/-- Witness for C4 at the spec's example: session start 2024-03-05T08:00
with batch start 2024-01-20T23:00 yields `month_diff_period = 2`. -/
theorem c4_month_diff_period_witness :
    ∃ m, c4md[0]? = some m ∧ m.month_diff_period = 2 := by
  obtain ⟨m, hm, hv⟩ :=
    (c4_month_diff_period [c4row] c4md (by rfl)).1 0 c4row tsA tsB (by rfl) (by rfl) (by rfl)
  refine ⟨m, hm, ?_⟩
  rw [hv]
  decide

/-! ### C5: null hour-bucket keys in the outer join -/

/-- A `df4` row carrying both sides comes from a matching pair. -/
theorem mergeOuter_matched (xs : List KeyedRow) (ys : List SlotRow) (d : Df4Row)
    (x : KeyedRow) (y : SlotRow) (hd : d ∈ mergeOuter xs ys)
    (hx : d.sess = some x) (hy : d.slot = some y) : rowsMatch x y = true := by
  rw [mergeOuter, List.mem_append] at hd
  rcases hd with hL | hR
  · obtain ⟨x', hx', hin⟩ := List.mem_flatMap.mp hL
    cases hf : ys.filter (fun y' => rowsMatch x' y') with
    | nil =>
      rw [hf] at hin
      have hd := List.mem_singleton.mp hin
      rw [hd] at hy
      exact absurd hy (by simp [leftOnlyRow])
    | cons z zs =>
      rw [hf] at hin
      obtain ⟨y', hy', hdp⟩ := List.mem_map.mp hin
      have hyy : y' ∈ ys.filter (fun y'' => rowsMatch x' y'') := hf ▸ hy'
      have hm := (List.mem_filter.mp hyy).2
      rw [← hdp] at hx hy
      have hxx : x' = x := by
        have : some x' = some x := hx
        injection this
      have hyy' : y' = y := by
        have : some y' = some y := hy
        injection this
      rw [← hxx, ← hyy']
      exact hm
  · obtain ⟨y', hy', hdp⟩ := List.mem_map.mp hR
    rw [← hdp] at hx
    exact absurd hx (by simp [rightOnlyRow])

/-- C5 counterexample to the claim as stated: a session row with a null
`session_start_time` gets a null key, a slot row built from a null date
also has a null key, and the outer merge does match them (pandas merge
equates null keys), so the session row does not appear only with the slot
side null. -/
theorem c5_counterexample :
    (addKey nullMD).year_month_date_hour = none ∧
    buildDf3 [nullSlotInput] = .ok [nullSlot] ∧
    mergeOuter [addKey nullMD] [nullSlot] = [pairRow (addKey nullMD) nullSlot] ∧
    (pairRow (addKey nullMD) nullSlot).sess = some (addKey nullMD) ∧
    (pairRow (addKey nullMD) nullSlot).slot = some nullSlot :=
  ⟨rfl, rfl, rfl, rfl, rfl⟩

/-- C5 (amended). A session row whose `session_start_time` is null gets a
null `year_month_date_hour` key, and in the outer join it is never matched
with a slot row whose key is non-null: any slot row matched with it has a
null key itself (i.e. came from a null slot date), because pandas merge
equates null keys. -/
theorem c5_null_key_isolation :
    (∀ (r : MDRow), r.session_start_time = none →
      (addKey r).year_month_date_hour = none) ∧
    (∀ (xs : List KeyedRow) (ys : List SlotRow) (d : Df4Row)
        (x : KeyedRow) (y : SlotRow),
      d ∈ mergeOuter xs ys → d.sess = some x → d.slot = some y →
      x.year_month_date_hour = none → y.year_month_date_hour = none) := by
  constructor
  · intro r h
    rw [addKey]
    show r.session_start_time.map strftimeYMDH = none
    rw [h]
    rfl
  · intro xs ys d x y hd hx hy hxk
    have hm := mergeOuter_matched xs ys d x y hd hx hy
    rw [rowsMatch, Bool.and_eq_true, Bool.and_eq_true] at hm
    obtain ⟨⟨hk, _⟩, _⟩ := hm
    rw [decide_eq_true_eq] at hk
    rw [← hk, hxk]

/-- Witness for C5's amended statement at the concrete null-key pair. -/
theorem c5_null_key_isolation_witness :
    (addKey nullMD).year_month_date_hour = none ∧
    nullSlot.year_month_date_hour = none := by
  constructor
  · exact c5_null_key_isolation.1 nullMD rfl
  · exact c5_null_key_isolation.2 [addKey nullMD] [nullSlot]
      (pairRow (addKey nullMD) nullSlot) (addKey nullMD) nullSlot
      (by rw [show mergeOuter [addKey nullMD] [nullSlot] =
          [pairRow (addKey nullMD) nullSlot] from rfl]
          exact List.mem_singleton.mpr rfl)
      rfl rfl rfl

/-! ### Concrete environments, worlds and fetched tables -/

/-- An environment with every variable set and non-empty. -/
def envFull : Env :=
  { ASHRITHA_SECRET_KEY := some "sec", USERNAME := some "user",
    SERVICE_ACCOUNT_JSON := some "svc-account-json",
    METABASE_URL := some "https://mb.example.com",
    TA_SHEET_ACCESS_KEY := some "sheet-key",
    TA_SESSIONS_QUERY := some "card/6135", TA_BATCH_QUERY := some "card/6570",
    TA_SLOTS_QUERY := some "card/6213" }

/-- `envFull` with the sessions query reference unset. -/
def envMissingQuery : Env := { envFull with TA_SESSIONS_QUERY := none }

/-- `envFull` with the analytics secret unset. -/
def envNoSecret : Env := { envFull with ASHRITHA_SECRET_KEY := none }

/-- A world where both auth steps succeed and every fetch attempt returns
the given tables. -/
def worldOk (s : Fetched Df1Row) (b : Fetched Df2Row) (l : Fetched SlotInput) : World :=
  { googleAuth := .ok (), metabaseAuth := .ok "token",
    netSessions := fun _ => .ok s, netBatch := fun _ => .ok b,
    netSlots := fun _ => .ok l }

/-- A world with a caller-chosen per-attempt outcome for the sessions
query, and fixed successful batch and slots fetches. -/
def worldSess (net : Nat → Except String (Fetched Df1Row)) (b : Fetched Df2Row)
    (l : Fetched SlotInput) : World :=
  { googleAuth := .ok (), metabaseAuth := .ok "token",
    netSessions := net, netBatch := fun _ => .ok b, netSlots := fun _ => .ok l }

/-- A well-formed sessions table. -/
def sessTblOk : Fetched Df1Row := { cols := df1SourceCols, rows := [sampleDf1Row] }

/-- A sessions table whose only row has an unparseable `session_start_time`. -/
def sessTblBad : Fetched Df1Row :=
  { cols := df1SourceCols,
    rows := [{ sampleDf1Row with session_start_time := .bad "not-a-timestamp" }] }

/-- A batch table carrying all required columns (pre-rename names). -/
def batchTblOk : Fetched Df2Row :=
  { cols := ["session_id", "batch", "mentor_name", "time_category", "session_start_time"],
    rows := [sampleDf2Row] }

/-- A batch table missing the `mentor_name` column. -/
def batchTblNoMentor : Fetched Df2Row :=
  { cols := ["session_id", "batch", "time_category", "session_start_time"], rows := [] }

/-- A well-formed slots table. -/
def slotsTbl : Fetched SlotInput :=
  { cols := ["date", "time_category", "ta"],
    rows := [{ date := .ts tsA, time_category := "morning", ta := "alice" }] }

/-! ### C6: the pipeline is not resilient to unparseable timestamps -/

/-- C6 fails on the code: a run whose sessions table contains an
unparseable `session_start_time` (which coerces to NaT) does not continue
with null-derived features; it dies.  First, every run that passes the
`df2` validation raises a KeyError at line 137, because the inner merge
suffixed both `session_start_time` columns; nothing is published.  Second,
even addressing the intended column, the vectorized
`to_period('M').astype(int)` of lines 140-143 raises on the coerced NaT
instead of propagating a null feature. -/
theorem c6_pipeline_fails :
    runPipeline envFull (worldOk sessTblBad batchTblOk slotsTbl) =
      { result := .error (.keyError "session_start_time"),
        fetchAttempts := 3, publishes := [] } ∧
    monthDiffStep ((mergeInner sessTblBad.rows batchTblOk.rows).map parseTimes) =
      .error "Cannot convert NaT values to integer" :=
  ⟨rfl, rfl⟩

/-! ### C7: fetch retry behaviour -/

/-- C7. `fetch_with_retry` makes at most 5 attempts, sleeping a fixed 15
seconds between failed attempts; if the first 4 attempts fail and the 5th
succeeds, the successful response is returned with no error; if all 5
attempts fail, the 5th attempt's failure is raised, the run ends with that
fetch error and nothing is published. -/
theorem c7_fetch_retry (net : Nat → Except String (Fetched Df1Row)) (r : Fetched Df1Row)
    (e : Nat → String) (b : Fetched Df2Row) (l : Fetched SlotInput) :
    (∀ (net' : Nat → Except String (Fetched Df1Row)),
      (fetchWithRetry net' 5 15).attempts ≤ 5 ∧
      (fetchWithRetry net' 5 15).sleeps =
        List.replicate ((fetchWithRetry net' 5 15).attempts - 1) 15) ∧
    ((∀ (i : Nat), 1 ≤ i → i ≤ 4 → net i = .error (e i)) → net 5 = .ok r →
      fetchWithRetry net 5 15 =
        { result := some (.ok r), attempts := 5, sleeps := [15, 15, 15, 15] }) ∧
    ((∀ (i : Nat), 1 ≤ i → i ≤ 5 → net i = .error (e i)) →
      fetchWithRetry net 5 15 =
        { result := some (.error (e 5)), attempts := 5, sleeps := [15, 15, 15, 15] } ∧
      (runPipeline envFull (worldSess net b l)).result =
        .error (.fetchError "sessions" (e 5)) ∧
      (runPipeline envFull (worldSess net b l)).publishes = []) := by
  refine ⟨?_, ?_, ?_⟩
  · intro net'
    exact ⟨fetchLoop_attempts_le net' 15 5 1, fetchLoop_sleeps net' 15 5 1⟩
  · intro h4 h5
    have l5 : fetchLoop net 15 5 1 =
        { result := some (.ok r), attempts := 1, sleeps := [] } :=
      fetchLoop_ok net 15 5 0 r h5
    have l4 : fetchLoop net 15 4 2 =
        { result := some (.ok r), attempts := 2, sleeps := [15] } := by
      rw [fetchLoop_step_err net 15 4 0 (e 4) (h4 4 (by omega) (by omega))]
      norm_num [l5]
    have l3 : fetchLoop net 15 3 3 =
        { result := some (.ok r), attempts := 3, sleeps := [15, 15] } := by
      rw [fetchLoop_step_err net 15 3 1 (e 3) (h4 3 (by omega) (by omega))]
      norm_num [l4]
    have l2 : fetchLoop net 15 2 4 =
        { result := some (.ok r), attempts := 4, sleeps := [15, 15, 15] } := by
      rw [fetchLoop_step_err net 15 2 2 (e 2) (h4 2 (by omega) (by omega))]
      norm_num [l3]
    have l1 : fetchLoop net 15 1 5 =
        { result := some (.ok r), attempts := 5, sleeps := [15, 15, 15, 15] } := by
      rw [fetchLoop_step_err net 15 1 3 (e 1) (h4 1 (by omega) (by omega))]
      norm_num [l2]
    exact l1
  · intro hall
    have l5 : fetchLoop net 15 5 1 =
        { result := some (.error (e 5)), attempts := 1, sleeps := [] } :=
      fetchLoop_last_err net 15 5 (e 5) (hall 5 (by omega) (by omega))
    have l4 : fetchLoop net 15 4 2 =
        { result := some (.error (e 5)), attempts := 2, sleeps := [15] } := by
      rw [fetchLoop_step_err net 15 4 0 (e 4) (hall 4 (by omega) (by omega))]
      norm_num [l5]
    have l3 : fetchLoop net 15 3 3 =
        { result := some (.error (e 5)), attempts := 3, sleeps := [15, 15] } := by
      rw [fetchLoop_step_err net 15 3 1 (e 3) (hall 3 (by omega) (by omega))]
      norm_num [l4]
    have l2 : fetchLoop net 15 2 4 =
        { result := some (.error (e 5)), attempts := 4, sleeps := [15, 15, 15] } := by
      rw [fetchLoop_step_err net 15 2 2 (e 2) (hall 2 (by omega) (by omega))]
      norm_num [l3]
    have l1 : fetchLoop net 15 1 5 =
        { result := some (.error (e 5)), attempts := 5, sleeps := [15, 15, 15, 15] } := by
      rw [fetchLoop_step_err net 15 1 3 (e 1) (hall 1 (by omega) (by omega))]
      norm_num [l2]
    have hfetch : fetchWithRetry net 5 15 =
        { result := some (.error (e 5)), attempts := 5, sleeps := [15, 15, 15, 15] } := l1
    refine ⟨hfetch, ?_, runPipeline_publishes_nil _ _⟩
    have hrun : runPipeline envFull (worldSess net b l) =
        collectResults (fetchWithRetry net 5 15)
          { result := some (.ok b), attempts := 1, sleeps := [] }
          { result := some (.ok l), attempts := 1, sleeps := [] } := rfl
    rw [hrun, hfetch]
    rfl

/-- Witness for C7 with concrete outcome functions: four failures then a
success, and five failures. -/
theorem c7_fetch_retry_witness :
    fetchWithRetry (fun i => if i = 5 then .ok sessTblOk else .error "boom") 5 15 =
      { result := some (.ok sessTblOk), attempts := 5, sleeps := [15, 15, 15, 15] } ∧
    fetchWithRetry (fun _ => (.error "boom" : Except String (Fetched Df1Row))) 5 15 =
      { result := some (.error "boom"), attempts := 5, sleeps := [15, 15, 15, 15] } ∧
    (runPipeline envFull
        (worldSess (fun _ => (.error "boom" : Except String (Fetched Df1Row)))
          batchTblOk slotsTbl)).publishes = [] := by
  refine ⟨?_, ?_, ?_⟩
  · exact (c7_fetch_retry (fun i => if i = 5 then .ok sessTblOk else .error "boom")
      sessTblOk (fun _ => "boom") batchTblOk slotsTbl).2.1
      (by intro i h1 h2; rw [if_neg (by omega)]) (by rw [if_pos rfl])
  · exact ((c7_fetch_retry (fun _ => (.error "boom" : Except String (Fetched Df1Row)))
      sessTblOk (fun _ => "boom") batchTblOk slotsTbl).2.2 (by intro i _ _; rfl)).1
  · exact ((c7_fetch_retry (fun _ => (.error "boom" : Except String (Fetched Df1Row)))
      sessTblOk (fun _ => "boom") batchTblOk slotsTbl).2.2 (by intro i _ _; rfl)).2.2

/-! ### C8: required-column validation aborts before any write -/

/-- C8. If a required batch column (in particular `mentor_name`) is absent
after the fetch and rename, the run raises the validation error carrying
exactly the missing-column set, and no worksheet write happens in that
run. -/
theorem c8_validation_aborts (s : Fetched Df1Row) (b : Fetched Df2Row)
    (l : Fetched SlotInput) (c : String)
    (hproj : (df1SourceCols.all fun c' => decide (c' ∈ s.cols)) = true)
    (hreq : c ∈ requiredDf2Cols)
    (habs : c ∉ renameCol "batch" "Batch" b.cols) :
    runPipeline envFull (worldOk s b l) =
      { result := .error (.schemaError (requiredDf2Cols.filter fun c' =>
          !decide (c' ∈ renameCol "batch" "Batch" b.cols))),
        fetchAttempts := 3, publishes := [] } ∧
    c ∈ (requiredDf2Cols.filter fun c' =>
        !decide (c' ∈ renameCol "batch" "Batch" b.cols)) := by
  have hmem : c ∈ (requiredDf2Cols.filter fun c' =>
      !decide (c' ∈ renameCol "batch" "Batch" b.cols)) :=
    List.mem_filter.mpr ⟨hreq, by simp [habs]⟩
  refine ⟨?_, hmem⟩
  have hrun : runPipeline envFull (worldOk s b l) = postFetch s b l 3 := rfl
  rw [hrun, postFetch]
  rw [hproj]
  have hne : (requiredDf2Cols.filter fun c' =>
      !decide (c' ∈ renameCol "batch" "Batch" b.cols)).isEmpty = false := by
    cases hie : (requiredDf2Cols.filter fun c' =>
        !decide (c' ∈ renameCol "batch" "Batch" b.cols)).isEmpty with
    | false => rfl
    | true =>
      rw [List.isEmpty_iff] at hie
      rw [hie] at hmem
      exact absurd hmem (List.not_mem_nil c)
  simp [hne]

/-- Witness for C8: a batch table without `mentor_name`. -/
theorem c8_validation_aborts_witness :
    runPipeline envFull (worldOk sessTblOk batchTblNoMentor slotsTbl) =
      { result := .error (.schemaError (requiredDf2Cols.filter fun c' =>
          !decide (c' ∈ renameCol "batch" "Batch" batchTblNoMentor.cols))),
        fetchAttempts := 3, publishes := [] } ∧
    "mentor_name" ∈ (requiredDf2Cols.filter fun c' =>
        !decide (c' ∈ renameCol "batch" "Batch" batchTblNoMentor.cols)) :=
  c8_validation_aborts sessTblOk batchTblNoMentor slotsTbl "mentor_name"
    (by decide) (by decide) (by decide)

/-! ### C9: which missing configuration values are checked up front -/

/-- C9 counterexample to the claim as stated: the query references are
required configuration values, but with `TA_SESSIONS_QUERY` unset the
process does not stop before fetching — `requests.post(None, ...)` raises
inside `fetch_with_retry`, which retries it five times (sleeping in
between) before the failure surfaces.  The run still ends in an error and
publishes nothing, but neither "without retry" nor "before any fetch"
holds: seven post attempts happen (five for sessions, one each for batch
and slots). -/
theorem c9_counterexample :
    envMissingQuery.TA_SESSIONS_QUERY = none ∧
    runPipeline envMissingQuery (worldOk sessTblOk batchTblOk slotsTbl) =
      { result := .error (.fetchError "sessions" "MissingSchema: Invalid URL None"),
        fetchAttempts := 7, publishes := [] } ∧
    ¬(runPipeline envMissingQuery (worldOk sessTblOk batchTblOk slotsTbl)).fetchAttempts
        = 0 := by
  refine ⟨rfl, rfl, ?_⟩
  intro h
  rw [show runPipeline envMissingQuery (worldOk sessTblOk batchTblOk slotsTbl) =
    { result := .error (.fetchError "sessions" "MissingSchema: Invalid URL None"),
      fetchAttempts := 7, publishes := [] } from rfl] at h
  exact absurd h (by decide)

/-- C9 (amended). For the four configuration values the script actually
checks up front — the analytics secret, the service-account payload, the
sheet key, and the analytics base URL — a missing (or empty) value makes
the run end in a configuration error, with zero fetch attempts and no
write.  A missing query reference is not validated: it surfaces only as a
retried fetch failure (see the counterexample). -/
theorem c9_config_checked (env : Env) (w : World)
    (h : env.METABASE_URL = none ∨ falsy env.ASHRITHA_SECRET_KEY = true ∨
      falsy env.SERVICE_ACCOUNT_JSON = true ∨ falsy env.TA_SHEET_ACCESS_KEY = true) :
    (∃ e, (runPipeline env w).result = .error e ∧ e.isConfigError = true) ∧
    (runPipeline env w).fetchAttempts = 0 ∧ (runPipeline env w).publishes = [] := by
  rw [runPipeline]
  cases hmb : env.METABASE_URL with
  | none => exact ⟨⟨_, rfl, rfl⟩, rfl, rfl⟩
  | some u =>
    cases h1 : (falsy env.ASHRITHA_SECRET_KEY || falsy env.SERVICE_ACCOUNT_JSON) with
    | true =>
      exact ⟨⟨_, rfl, rfl⟩, rfl, rfl⟩
    | false =>
      have h2 : falsy env.TA_SHEET_ACCESS_KEY = true := by
        rcases h with hc | hc | hc | hc
        · rw [hmb] at hc; exact absurd hc (by simp)
        · rw [Bool.or_eq_false_iff] at h1; rw [hc] at h1; exact absurd h1.1 (by simp)
        · rw [Bool.or_eq_false_iff] at h1; rw [hc] at h1; exact absurd h1.2 (by simp)
        · exact hc
      rw [if_pos h2]
      exact ⟨⟨_, rfl, rfl⟩, rfl, rfl⟩

/-- Witness for C9's amended statement: a run with the secret unset. -/
theorem c9_config_checked_witness :
    (∃ e, (runPipeline envNoSecret (worldOk sessTblOk batchTblOk slotsTbl)).result =
        .error e ∧ e.isConfigError = true) ∧
    (runPipeline envNoSecret (worldOk sessTblOk batchTblOk slotsTbl)).fetchAttempts = 0 ∧
    (runPipeline envNoSecret (worldOk sessTblOk batchTblOk slotsTbl)).publishes = [] :=
  c9_config_checked envNoSecret (worldOk sessTblOk batchTblOk slotsTbl)
    (Or.inr (Or.inl rfl))

/-! ### C10: slot-date parsing is strict for strings but not for nulls -/

def bobSlotInput : SlotInput :=
  { date := RawCell.null, time_category := "evening", ta := "bob" }

def bobSlot : SlotRow :=
  { date := none, year_month_date_hour := none, mentor_name := "bob",
    time_category := "evening" }

def badSlotInput : SlotInput :=
  { date := RawCell.bad "not-a-date", time_category := "morning", ta := "alice" }

def tsASlotInput : SlotInput :=
  { date := RawCell.ts tsA, time_category := "morning", ta := "alice" }

def tsASlot : SlotRow :=
  { date := some tsA, year_month_date_hour := some "2024-03-05-08",
    mentor_name := "alice", time_category := "morning" }

/-- C10 counterexample to the claim as stated: a slots input whose date is
null builds `df3` successfully, producing a row with a null parsed date
and a null `year_month_date_hour` key — so a successful build does not
guarantee non-null dates and keys on every row of the published table. -/
theorem c10_counterexample :
    buildDf3 [bobSlotInput] = .ok [bobSlot] ∧
    ¬(∀ r ∈ [bobSlot], r.date.isSome = true) := by
  refine ⟨rfl, ?_⟩
  intro h
  have := h _ (List.mem_singleton.mpr rfl)
  simp [bobSlot] at this

/-- C10 (amended). Slot-table date parsing is strict for strings, unlike
the coercing session-timestamp parsing: an unparseable date string makes
building `df3` raise (fatal for that stage), so whenever the build
succeeds, every row whose source date was an actual value (not null) has a
non-null parsed date and a non-null key; rows with a null source date pass
through with both fields null. -/
theorem c10_strict_slot_dates :
    buildDf3 [badSlotInput] = .error "not-a-date" ∧
    ∀ (xs : List SlotInput) (out : List SlotRow), buildDf3 xs = .ok out →
      out.length = xs.length ∧
      ∀ (i : Nat) (x : SlotInput) (r : SlotRow), xs[i]? = some x → out[i]? = some r →
        (x.date ≠ RawCell.null →
          r.date.isSome = true ∧ r.year_month_date_hour.isSome = true) ∧
        (x.date = RawCell.null → r.date = none ∧ r.year_month_date_hour = none) := by
  refine ⟨rfl, ?_⟩
  intro xs out h
  obtain ⟨hlen, hidx⟩ := exceptMap_ok _ _ _ h
  refine ⟨hlen, ?_⟩
  intro i x r hx hr
  obtain ⟨y, hy, hfy⟩ := hidx i x hx
  rw [hr] at hy
  have hyr : r = y := by injection hy
  subst hyr
  cases hd : x.date with
  | null =>
    rw [hd] at hfy
    rw [show toDatetimeStrict RawCell.null = .ok (none : Option Timestamp) from rfl] at hfy
    injection hfy with hrec
    rw [← hrec]
    exact ⟨fun hne => absurd rfl hne, fun _ => ⟨rfl, rfl⟩⟩
  | ts t =>
    rw [hd] at hfy
    rw [show toDatetimeStrict (RawCell.ts t) = .ok (some t) from rfl] at hfy
    injection hfy with hrec
    rw [← hrec]
    exact ⟨fun _ => ⟨rfl, rfl⟩, fun hnull => RawCell.noConfusion hnull⟩
  | bad str =>
    rw [hd] at hfy
    rw [show toDatetimeStrict (RawCell.bad str) = .error str from rfl] at hfy
    exact absurd hfy (by simp)

/-- Witness for C10's amended statement at a parseable concrete slot. -/
theorem c10_strict_slot_dates_witness :
    tsASlot.date.isSome = true ∧ tsASlot.year_month_date_hour.isSome = true := by
  exact ((c10_strict_slot_dates.2 [tsASlotInput] [tsASlot] (by rfl)).2
    0 tsASlotInput tsASlot (by rfl) (by rfl)).1 (by simp [tsASlotInput])

end TA
